import Mathlib

/-!
Shallow embedding of the vehicle insurance renewal program
(src/vehicleregestration.cpp).

Modelling conventions:
  - C++ doubles that hold monetary amounts and rate factors are modelled
    as exact rationals (Rat);
  - the platform date arithmetic (mktime / difftime in daysBetween) is
    abstracted as a caller-supplied integer-valued day-difference
    function, so every theorem about the renewal flow holds for every
    possible behaviour of that platform routine;
  - the interactive inputs of the console program (payment-method choice,
    promo code, the y/n payment confirmation) are explicit parameters of
    the corresponding functions;
  - getCurrentSystemYear (the ambient system clock year) is an explicit
    currentYear parameter.
-/

/-- Calendar date record (struct PolicyDate): day, month, year. -/
structure PolicyDate where
  day : Int
  month : Int
  year : Int
deriving DecidableEq

/-- Policy record (struct Policy): registration date, renewal due date and
a status label. -/
structure Policy where
  registrationDate : PolicyDate
  renewalDueDate : PolicyDate
  status : String
deriving DecidableEq

/-- calculateRenewalDate: same day and month, year incremented by one. -/
def calculateRenewalDate (d : PolicyDate) : PolicyDate :=
  { d with year := d.year + 1 }

/-- Vehicle record (class Vehicle): make, model, manufacture year,
original value, fuel type and the owned Policy. -/
structure Vehicle where
  make : String
  model : String
  year : Int
  originalValue : Rat
  fuelType : String
  policy : Policy
deriving DecidableEq

/-- The Vehicle constructor: stores the attributes, sets the policy
registration date, sets the renewal due date to calculateRenewalDate of
the registration date, and sets the status to "New". -/
def mkVehicle (m mo : String) (y : Int) (val : Rat) (ft : String)
    (regDate : PolicyDate) : Vehicle :=
  { make := m, model := mo, year := y, originalValue := val, fuelType := ft,
    policy := { registrationDate := regDate,
                renewalDueDate := calculateRenewalDate regDate,
                status := "New" } }

/-- Vehicle::setPolicyStatus. -/
def setPolicyStatus (v : Vehicle) (status : String) : Vehicle :=
  { v with policy := { v.policy with status := status } }

/-- Vehicle::setRenewalDueDate. -/
def setRenewalDueDate (v : Vehicle) (d : PolicyDate) : Vehicle :=
  { v with policy := { v.policy with renewalDueDate := d } }

/-! Constants of class InsuranceCalculator. -/

def BASE_RATE_PERCENTAGE : Rat := 25/1000

def AGE_DEPRECIATION_RATE : Rat := 3/100

def MINIMUM_AGE_FACTOR : Rat := 7/10

def MINIMUM_PREMIUM : Rat := 5000

def GRACE_PERIOD_DAYS : Int := 30

def FINE_PER_DAY : Rat := 50

/-- InsuranceCalculator::getBaseRate. -/
def getBaseRate (v : Vehicle) : Rat := v.originalValue * BASE_RATE_PERCENTAGE

/-- InsuranceCalculator::getAgeFactor; the system clock year is the
explicit currentYear parameter. -/
def getAgeFactor (currentYear year : Int) : Rat :=
  let age : Int := max 0 (currentYear - year)
  let factor : Rat := 1 - (age : Rat) * AGE_DEPRECIATION_RATE
  max MINIMUM_AGE_FACTOR factor

/-- std::tolower on one character in the default C locale: ASCII upper
case letters are shifted to lower case, all else unchanged. -/
def asciiToLower (c : Char) : Char :=
  if c.isUpper then Char.ofNat (c.toNat + 32) else c

/-- std::toupper on one character in the default C locale: ASCII lower
case letters are shifted to upper case, all else unchanged. -/
def asciiToUpper (c : Char) : Char :=
  if c.isLower then Char.ofNat (c.toNat - 32) else c

/-- std::transform of the whole string with tolower. -/
def strLower (s : String) : String := String.mk (s.data.map asciiToLower)

/-- std::transform of the whole string with toupper. -/
def strUpper (s : String) : String := String.mk (s.data.map asciiToUpper)

/-- InsuranceCalculator::getFuelTypeAdjustment: lower-cases the fuel type
and matches "electric" (discount 500) and "diesel" (surcharge 250). -/
def getFuelTypeAdjustment (fuelType : String) : Rat :=
  let f := strLower fuelType
  if f = "electric" then -500
  else if f = "diesel" then 250
  else 0

/-- InsuranceCalculator::calculatePremium. -/
def calculatePremium (currentYear : Int) (v : Vehicle) : Rat :=
  let baseRate := getBaseRate v
  let ageFactor := getAgeFactor currentYear v.year
  let fuelAdjustment := getFuelTypeAdjustment v.fuelType
  let premium := baseRate * ageFactor + fuelAdjustment
  if premium < MINIMUM_PREMIUM then MINIMUM_PREMIUM else premium

/-- InsuranceCalculator::calculateLateFine. -/
def calculateLateFine (daysOverdue : Int) : Rat :=
  if daysOverdue ≤ GRACE_PERIOD_DAYS then 0
  else ((daysOverdue - GRACE_PERIOD_DAYS : Int) : Rat) * FINE_PER_DAY

/-- struct BillBreakdown. -/
structure BillBreakdown where
  basePremium : Rat
  fine : Rat
  discount : Rat
  convenienceFee : Rat
  emiInterest : Rat
  gst : Rat
  total : Rat
deriving DecidableEq

/-- The default-constructed BillBreakdown (all fields zero). -/
def emptyBill : BillBreakdown :=
  { basePremium := 0, fine := 0, discount := 0, convenienceFee := 0,
    emiInterest := 0, gst := 0, total := 0 }

namespace PaymentProcessor

/-! The Method enumerators Card = 1, UPI = 2, NetBanking = 3, Branch = 4,
EMI3 = 5, EMI6 = 6 are modelled by their underlying integer values, so
that the default branches of the switch statements are visible. -/

def GST_RATE : Rat := 18/100

/-- PaymentProcessor::applyPromo: upper-cases the code; LOYAL5 gives
min(500, 5% of the pre-GST subtotal), FIRST100 gives a flat 100, any
other code gives 0. -/
def applyPromo (code : String) (subtotalBeforeGST : Rat) : Rat :=
  let c := strUpper code
  if c = "LOYAL5" then min 500 (5/100 * subtotalBeforeGST)
  else if c = "FIRST100" then 100
  else 0

/-- PaymentProcessor::quote. The method is the underlying integer of the
Method enum; any value other than 1..6 takes the default switch branches. -/
def quote (method : Int) (basePremium fine : Rat) (promoCode : String) :
    BillBreakdown :=
  let conv : Rat :=
    if method = 1 then min 150 (15/1000 * (basePremium + fine))
    else if method = 2 then 0
    else if method = 3 then 10
    else if method = 4 then 50
    else if method = 5 then 0
    else if method = 6 then 0
    else 0
  let months : Int := if method = 5 then 3 else if method = 6 then 6 else 0
  let emiInt : Rat :=
    if 0 < months then 12/100 * (basePremium + fine) * ((months : Rat) / 12)
    else 0
  let subtotalBeforeGST := basePremium + fine + conv + emiInt
  let discount := applyPromo promoCode subtotalBeforeGST
  let subtotal := max 0 (subtotalBeforeGST - discount)
  let gst := subtotal * GST_RATE
  { basePremium := basePremium, fine := fine, discount := discount,
    convenienceFee := conv, emiInterest := emiInt, gst := gst,
    total := subtotal + gst }

end PaymentProcessor

/-- struct StatusResult. -/
structure StatusResult where
  status : String
  daysToDueOrOverdue : Int
  fine : Rat
  expired : Bool
deriving DecidableEq

/-- evaluateStatus, as a function of
diff = daysBetween(renewalDueDate, currentDate). -/
def evaluateStatus (diff : Int) : StatusResult :=
  if 0 ≤ diff then
    { status := "Active", daysToDueOrOverdue := diff, fine := 0,
      expired := false }
  else
    let overdueDays : Int := |diff|
    if overdueDays ≤ GRACE_PERIOD_DAYS then
      { status := "Due (Grace Period)", daysToDueOrOverdue := -overdueDays,
        fine := 0, expired := false }
    else
      { status := "OVERDUE / EXPIRED", daysToDueOrOverdue := -overdueDays,
        fine := calculateLateFine overdueDays, expired := true }

/-- struct BillAndMethod. -/
structure BillAndMethod where
  bill : BillBreakdown
  method : Int
  valid : Bool
deriving DecidableEq

/-- quoteAndChoosePayment; the interactively read method choice and promo
code are explicit parameters. An out-of-range choice returns the
default-constructed (invalid) BillAndMethod. -/
def quoteAndChoosePayment (methodChoice : Int) (promo : String)
    (basePremium fine : Rat) : BillAndMethod :=
  if methodChoice < 1 ∨ methodChoice > 6 then
    { bill := emptyBill, method := 2, valid := false }
  else
    { bill := PaymentProcessor.quote methodChoice basePremium fine promo,
      method := methodChoice, valid := true }

/-- The four ways a performRenewal run can end. -/
inductive RenewalOutcome where
  | notExpired
  | invalidSelection
  | paymentDeclined
  | committed
deriving DecidableEq

/-- The vehicle state after performRenewal together with the outcome. -/
structure RenewalResult where
  vehicle : Vehicle
  outcome : RenewalOutcome
deriving DecidableEq

/-- performRenewal. The platform daysBetween routine, the system clock
year, the interactively read method choice and promo code, and the
confirmAndPay y/n decision are explicit parameters; the final vehicle
state is returned together with the outcome. -/
def performRenewal (daysBetween : PolicyDate → PolicyDate → Int)
    (currentYear : Int) (v : Vehicle) (currentDate : PolicyDate)
    (methodChoice : Int) (promo : String)
    (confirmAndPay : BillBreakdown → Int → Bool) : RenewalResult :=
  let basePremium := calculatePremium currentYear v
  let s := evaluateStatus (daysBetween v.policy.renewalDueDate currentDate)
  if s.expired = false then
    { vehicle := v, outcome := RenewalOutcome.notExpired }
  else
    let v1 := setPolicyStatus v s.status
    let qm := quoteAndChoosePayment methodChoice promo basePremium s.fine
    if qm.valid = false then
      { vehicle := v1, outcome := RenewalOutcome.invalidSelection }
    else if confirmAndPay qm.bill qm.method = false then
      { vehicle := v1, outcome := RenewalOutcome.paymentDeclined }
    else
      let oldDue := v1.policy.renewalDueDate
      let newDue := calculateRenewalDate oldDue
      let v2 := setPolicyStatus (setRenewalDueDate v1 newDue) "Active"
      { vehicle := v2, outcome := RenewalOutcome.committed }

/-- An example registration date used by concrete witnesses. -/
def egDate : PolicyDate := { day := 1, month := 1, year := 2024 }

/-- An example vehicle (freshly constructed, status "New") used by
concrete witnesses. -/
def egVehicle : Vehicle := mkVehicle "Maruti" "Alto" 2020 300000 "Petrol" egDate

/-! Helper lemmas (shared by several claim proofs). -/

/-- Characterisation of evaluateStatus by direct case analysis on the
sign of the day difference. -/
theorem evaluateStatus_eq (diff : Int) :
    evaluateStatus diff =
      if 0 ≤ diff then
        { status := "Active", daysToDueOrOverdue := diff, fine := 0,
          expired := false }
      else if -30 ≤ diff then
        { status := "Due (Grace Period)", daysToDueOrOverdue := diff,
          fine := 0, expired := false }
      else
        { status := "OVERDUE / EXPIRED", daysToDueOrOverdue := diff,
          fine := calculateLateFine (-diff), expired := true } := by
  unfold evaluateStatus GRACE_PERIOD_DAYS
  by_cases h1 : (0 : Int) ≤ diff
  · simp [h1]
  · have habs : |diff| = -diff := abs_of_neg (by omega)
    by_cases h2 : (-30 : Int) ≤ diff
    · have h3 : -diff ≤ (30 : Int) := by omega
      simp [h1, h2, h3, habs]
    · have h3 : (30 : Int) < -diff := by omega
      simp [h1, h2, h3, habs]

/-- The fine is at least one day's worth (50) once strictly past the
30-day grace period. -/
theorem calculateLateFine_ge (d : Int) (h : 31 ≤ d) :
    (50 : Rat) ≤ calculateLateFine d := by
  unfold calculateLateFine GRACE_PERIOD_DAYS FINE_PER_DAY
  rw [if_neg (by omega)]
  have h1 : (1 : Rat) ≤ ((d - 30 : Int) : Rat) := by exact_mod_cast (by omega : (1:Int) ≤ d - 30)
  nlinarith

/-- C3: evaluateStatus partitions the integer day-differences: diff ≥ 0
gives Active (not expired, fine 0); 0 > diff ≥ −30 gives the grace-period
status (not expired, fine 0); diff < −30 gives OVERDUE / EXPIRED with
fine calculateLateFine(−diff). -/
theorem evaluateStatus_partition (diff : Int) :
    (0 ≤ diff → evaluateStatus diff =
      { status := "Active", daysToDueOrOverdue := diff, fine := 0,
        expired := false }) ∧
    (diff < 0 → -30 ≤ diff → evaluateStatus diff =
      { status := "Due (Grace Period)", daysToDueOrOverdue := diff,
        fine := 0, expired := false }) ∧
    (diff < -30 → evaluateStatus diff =
      { status := "OVERDUE / EXPIRED", daysToDueOrOverdue := diff,
        fine := calculateLateFine (-diff), expired := true }) := by
  rw [evaluateStatus_eq]
  refine ⟨fun h1 => by simp [h1], fun h1 h2 => ?_, fun h1 => ?_⟩
  · rw [if_neg (by omega), if_pos h2]
  · rw [if_neg (by omega), if_neg (by omega)]

/-- Witness for C3 at concrete day differences in each of the three
regions of the partition. -/
theorem evaluateStatus_partition_witness :
    evaluateStatus 5 =
      { status := "Active", daysToDueOrOverdue := 5, fine := 0,
        expired := false } ∧
    evaluateStatus (-10) =
      { status := "Due (Grace Period)", daysToDueOrOverdue := -10,
        fine := 0, expired := false } ∧
    evaluateStatus (-31) =
      { status := "OVERDUE / EXPIRED", daysToDueOrOverdue := -31,
        fine := calculateLateFine 31, expired := true } :=
  ⟨(evaluateStatus_partition 5).1 (by decide),
   (evaluateStatus_partition (-10)).2.1 (by decide) (by decide),
   (evaluateStatus_partition (-31)).2.2 (by decide)⟩

/-- C5: calculateLateFine is 0 up to 30 days, (d − 30) × 50 beyond, and
increases by exactly 50 per additional day once d ≥ 30 (no cap). -/
theorem calculateLateFine_spec (d : Int) :
    (calculateLateFine d =
      if d ≤ 30 then 0 else ((d - 30 : Int) : Rat) * 50) ∧
    (30 ≤ d → calculateLateFine (d + 1) = calculateLateFine d + 50) := by
  constructor
  · simp only [calculateLateFine, GRACE_PERIOD_DAYS, FINE_PER_DAY]
  · intro hd
    simp only [calculateLateFine, GRACE_PERIOD_DAYS, FINE_PER_DAY]
    by_cases h : d ≤ 30
    · have hd30 : d = 30 := le_antisymm h hd
      subst hd30
      norm_num
    · rw [if_neg (by omega), if_neg h]
      push_cast
      ring

/-- Witness for C5 at d = 31 (the first day past the grace period the
step-by-50 law is applied to) and the plain formula at d = 40. -/
theorem calculateLateFine_spec_witness :
    calculateLateFine 40 = ((40 - 30 : Int) : Rat) * 50 ∧
    calculateLateFine 32 = calculateLateFine 31 + 50 :=
  ⟨((calculateLateFine_spec 40).1).trans (by norm_num),
   (calculateLateFine_spec 31).2 (by decide)⟩

/-- C8: the fine of a StatusResult is strictly positive exactly when the
expired flag is set; when expired the fine is at least 50, and when not
expired the fine is exactly 0. -/
theorem evaluateStatus_fine_iff_expired (diff : Int) :
    (0 < (evaluateStatus diff).fine ↔ (evaluateStatus diff).expired = true) ∧
    ((evaluateStatus diff).expired = true →
      (50 : Rat) ≤ (evaluateStatus diff).fine) ∧
    ((evaluateStatus diff).expired = false → (evaluateStatus diff).fine = 0) := by
  rw [evaluateStatus_eq]
  by_cases h1 : (0 : Int) ≤ diff
  · simp [h1]
  · by_cases h2 : (-30 : Int) ≤ diff
    · rw [if_neg h1, if_pos h2]
      simp
    · rw [if_neg h1, if_neg h2]
      have hge : (50 : Rat) ≤ calculateLateFine (-diff) :=
        calculateLateFine_ge (-diff) (by omega)
      refine ⟨?_, fun _ => hge, fun hc => by simp at hc⟩
      constructor
      · intro _
        rfl
      · intro _
        linarith

/-- Witness for C8: expired at diff = −31 forces a fine of at least 50,
and not-expired at diff = −5 forces a zero fine. -/
theorem evaluateStatus_fine_iff_expired_witness :
    (50 : Rat) ≤ (evaluateStatus (-31)).fine ∧
    (evaluateStatus (-5)).fine = 0 :=
  ⟨(evaluateStatus_fine_iff_expired (-31)).2.1 (by decide),
   (evaluateStatus_fine_iff_expired (-5)).2.2 (by decide)⟩

/-- The FIRST100 promo code gives the flat 100 discount whatever the
subtotal is. -/
theorem applyPromo_FIRST100 (x : Rat) :
    PaymentProcessor.applyPromo "FIRST100" x = 100 := by
  simp only [PaymentProcessor.applyPromo]
  rw [if_neg (by decide), if_pos (by decide)]

/-- Full evaluation of the quote at method UPI, basePremium 0, fine 0 and
promo code FIRST100: the 100 discount exceeds the 0 subtotal and the
total is floored at 0. -/
theorem quote_FIRST100_floor :
    PaymentProcessor.quote 2 0 0 "FIRST100" =
      { basePremium := 0, fine := 0, discount := 100, convenienceFee := 0,
        emiInterest := 0, gst := 0, total := 0 } := by
  simp only [PaymentProcessor.quote, applyPromo_FIRST100,
    PaymentProcessor.GST_RATE]
  norm_num

/-- C2 (counterexample): at method UPI, basePremium 0, fine 0 and promo
code FIRST100 the flat 100 discount exceeds the subtotal, the code floors
the post-discount subtotal at 0, and the returned total is 0 rather than
the −100 demanded by the claimed identity
total = basePremium + fine + convenienceFee + emiInterest − discount + gst. -/
theorem quote_total_claim_counterexample :
    ¬ ((PaymentProcessor.quote 2 0 0 "FIRST100").total
        = (PaymentProcessor.quote 2 0 0 "FIRST100").basePremium
          + (PaymentProcessor.quote 2 0 0 "FIRST100").fine
          + (PaymentProcessor.quote 2 0 0 "FIRST100").convenienceFee
          + (PaymentProcessor.quote 2 0 0 "FIRST100").emiInterest
          - (PaymentProcessor.quote 2 0 0 "FIRST100").discount
          + (PaymentProcessor.quote 2 0 0 "FIRST100").gst) := by
  rw [quote_FIRST100_floor]
  norm_num

/-- C2 (amended): for every method, basePremium, fine and promo code the
breakdown satisfies total = max(0, basePremium + fine + convenienceFee +
emiInterest − discount) + gst with gst = 0.18 × max(0, basePremium + fine
+ convenienceFee + emiInterest − discount); the claimed un-floored
identity holds exactly when the discount does not exceed the pre-discount
subtotal. -/
theorem quote_total_formula (method : Int) (basePremium fine : Rat)
    (promoCode : String) :
    (PaymentProcessor.quote method basePremium fine promoCode).total
      = max 0 ((PaymentProcessor.quote method basePremium fine promoCode).basePremium
          + (PaymentProcessor.quote method basePremium fine promoCode).fine
          + (PaymentProcessor.quote method basePremium fine promoCode).convenienceFee
          + (PaymentProcessor.quote method basePremium fine promoCode).emiInterest
          - (PaymentProcessor.quote method basePremium fine promoCode).discount)
        + (PaymentProcessor.quote method basePremium fine promoCode).gst ∧
    (PaymentProcessor.quote method basePremium fine promoCode).gst
      = 18/100 * max 0 ((PaymentProcessor.quote method basePremium fine promoCode).basePremium
          + (PaymentProcessor.quote method basePremium fine promoCode).fine
          + (PaymentProcessor.quote method basePremium fine promoCode).convenienceFee
          + (PaymentProcessor.quote method basePremium fine promoCode).emiInterest
          - (PaymentProcessor.quote method basePremium fine promoCode).discount) := by
  constructor
  · simp only [PaymentProcessor.quote, PaymentProcessor.GST_RATE]
  · simp only [PaymentProcessor.quote, PaymentProcessor.GST_RATE]
    ring

/-- C4: the per-method convenience fee and EMI interest schedule of
quote: Card min(150, 1.5%), UPI 0, NetBanking 10, Branch 50, EMI-3 and
EMI-6 fee 0 with 12% p.a. simple interest pro-rated to 3 and 6 months;
the EMI interest is 0 for every non-EMI method. -/
theorem quote_fee_schedule (basePremium fine : Rat) (promoCode : String) :
    ((PaymentProcessor.quote 1 basePremium fine promoCode).convenienceFee
        = min 150 (15/1000 * (basePremium + fine)) ∧
      (PaymentProcessor.quote 1 basePremium fine promoCode).emiInterest = 0) ∧
    ((PaymentProcessor.quote 2 basePremium fine promoCode).convenienceFee = 0 ∧
      (PaymentProcessor.quote 2 basePremium fine promoCode).emiInterest = 0) ∧
    ((PaymentProcessor.quote 3 basePremium fine promoCode).convenienceFee = 10 ∧
      (PaymentProcessor.quote 3 basePremium fine promoCode).emiInterest = 0) ∧
    ((PaymentProcessor.quote 4 basePremium fine promoCode).convenienceFee = 50 ∧
      (PaymentProcessor.quote 4 basePremium fine promoCode).emiInterest = 0) ∧
    ((PaymentProcessor.quote 5 basePremium fine promoCode).convenienceFee = 0 ∧
      (PaymentProcessor.quote 5 basePremium fine promoCode).emiInterest
        = 12/100 * (basePremium + fine) * (3/12)) ∧
    ((PaymentProcessor.quote 6 basePremium fine promoCode).convenienceFee = 0 ∧
      (PaymentProcessor.quote 6 basePremium fine promoCode).emiInterest
        = 12/100 * (basePremium + fine) * (6/12)) := by
  refine ⟨⟨?_, ?_⟩, ⟨?_, ?_⟩, ⟨?_, ?_⟩, ⟨?_, ?_⟩, ⟨?_, ?_⟩, ⟨?_, ?_⟩⟩ <;>
    simp only [PaymentProcessor.quote] <;> norm_num

/-- C9: for any method value outside 1..6 quote takes the default switch
branches: it still returns a complete breakdown, with convenience fee 0
and EMI interest 0, identical to the UPI breakdown on the same inputs. -/
theorem quote_default_method (method : Int) (basePremium fine : Rat)
    (promoCode : String) (h : method < 1 ∨ 6 < method) :
    (PaymentProcessor.quote method basePremium fine promoCode).convenienceFee = 0 ∧
    (PaymentProcessor.quote method basePremium fine promoCode).emiInterest = 0 ∧
    PaymentProcessor.quote method basePremium fine promoCode
      = PaymentProcessor.quote 2 basePremium fine promoCode := by
  have h1 : method ≠ 1 := by omega
  have h2 : method ≠ 2 := by omega
  have h3 : method ≠ 3 := by omega
  have h4 : method ≠ 4 := by omega
  have h5 : method ≠ 5 := by omega
  have h6 : method ≠ 6 := by omega
  refine ⟨?_, ?_, ?_⟩ <;>
    simp only [PaymentProcessor.quote, h1, h2, h3, h4, h5, h6,
      if_false, if_neg] <;> norm_num

/-- Witness for C9 at the concrete out-of-range method value 7. -/
theorem quote_default_method_witness :
    ((7 : Int) < 1 ∨ 6 < (7 : Int)) ∧
    PaymentProcessor.quote 7 100 20 "LOYAL5"
      = PaymentProcessor.quote 2 100 20 "LOYAL5" :=
  ⟨Or.inr (by decide),
   (quote_default_method 7 100 20 "LOYAL5" (Or.inr (by decide))).2.2⟩

/-- C6: calculatePremium is the floored formula
max(5000, value × 0.025 × max(0.7, 1 − 0.03 × max(0, currentYear −
manufactureYear)) + fuelAdjustment); it is always at least 5000, and the
fuel adjustment is −500 for Electric, +250 for Diesel (case-insensitive)
and 0 otherwise. -/
theorem calculatePremium_spec (currentYear : Int) (v : Vehicle) :
    (calculatePremium currentYear v
      = max 5000 (v.originalValue * (25/1000)
          * max (7/10) (1 - ((max 0 (currentYear - v.year) : Int) : Rat) * (3/100))
          + getFuelTypeAdjustment v.fuelType)) ∧
    (5000 : Rat) ≤ calculatePremium currentYear v ∧
    getFuelTypeAdjustment "Electric" = -500 ∧
    getFuelTypeAdjustment "DieSel" = 250 ∧
    getFuelTypeAdjustment "Petrol" = 0 := by
  refine ⟨?_, ?_, ?_, ?_, ?_⟩
  · simp only [calculatePremium, getBaseRate, getAgeFactor,
      BASE_RATE_PERCENTAGE, AGE_DEPRECIATION_RATE, MINIMUM_AGE_FACTOR,
      MINIMUM_PREMIUM]
    split
    · rename_i h
      exact (max_eq_left (le_of_lt h)).symm
    · rename_i h
      exact (max_eq_right (le_of_not_lt h)).symm
  · simp only [calculatePremium, MINIMUM_PREMIUM]
    split
    · exact le_refl _
    · rename_i h
      exact le_of_not_lt h
  · simp only [getFuelTypeAdjustment]
    rw [if_pos (by decide)]
  · simp only [getFuelTypeAdjustment]
    rw [if_neg (by decide), if_pos (by decide)]
  · simp only [getFuelTypeAdjustment]
    rw [if_neg (by decide), if_neg (by decide)]

/-- When a StatusResult of evaluateStatus reports expired, its status
label is the OVERDUE / EXPIRED one. -/
theorem evaluateStatus_expired_status (diff : Int)
    (h : (evaluateStatus diff).expired = true) :
    (evaluateStatus diff).status = "OVERDUE / EXPIRED" := by
  rw [evaluateStatus_eq] at h ⊢
  by_cases h1 : (0 : Int) ≤ diff
  · rw [if_pos h1] at h
    simp at h
  · by_cases h2 : (-30 : Int) ≤ diff
    · rw [if_neg h1, if_pos h2] at h
      simp at h
    · rw [if_neg h1, if_neg h2]

/-- Unfolding of performRenewal into its four guarded outcomes. -/
theorem performRenewal_eq (daysBetween : PolicyDate → PolicyDate → Int)
    (currentYear : Int) (v : Vehicle) (currentDate : PolicyDate)
    (methodChoice : Int) (promo : String)
    (confirmAndPay : BillBreakdown → Int → Bool) :
    performRenewal daysBetween currentYear v currentDate methodChoice promo
        confirmAndPay =
      (if (evaluateStatus (daysBetween v.policy.renewalDueDate
            currentDate)).expired = false then
        { vehicle := v, outcome := RenewalOutcome.notExpired }
      else if (quoteAndChoosePayment methodChoice promo
            (calculatePremium currentYear v)
            (evaluateStatus (daysBetween v.policy.renewalDueDate
              currentDate)).fine).valid = false then
        { vehicle := setPolicyStatus v
            (evaluateStatus (daysBetween v.policy.renewalDueDate
              currentDate)).status,
          outcome := RenewalOutcome.invalidSelection }
      else if confirmAndPay
            (quoteAndChoosePayment methodChoice promo
              (calculatePremium currentYear v)
              (evaluateStatus (daysBetween v.policy.renewalDueDate
                currentDate)).fine).bill
            (quoteAndChoosePayment methodChoice promo
              (calculatePremium currentYear v)
              (evaluateStatus (daysBetween v.policy.renewalDueDate
                currentDate)).fine).method = false then
        { vehicle := setPolicyStatus v
            (evaluateStatus (daysBetween v.policy.renewalDueDate
              currentDate)).status,
          outcome := RenewalOutcome.paymentDeclined }
      else
        { vehicle := setPolicyStatus
            (setRenewalDueDate
              (setPolicyStatus v
                (evaluateStatus (daysBetween v.policy.renewalDueDate
                  currentDate)).status)
              (calculateRenewalDate v.policy.renewalDueDate)) "Active",
          outcome := RenewalOutcome.committed }) := rfl

/-- C7: the renewal-due-date invariant: at Vehicle construction the due
date is the registration date with the year incremented by one (same day
and month), and a committed renewal sets the due date to the prior due
date with the year incremented by one (same day and month). -/
theorem renewal_due_date_invariant
    (m mo : String) (y : Int) (val : Rat) (ft : String) (regDate : PolicyDate)
    (daysBetween : PolicyDate → PolicyDate → Int) (currentYear : Int)
    (v : Vehicle) (currentDate : PolicyDate) (methodChoice : Int)
    (promo : String) (confirmAndPay : BillBreakdown → Int → Bool) :
    ((mkVehicle m mo y val ft regDate).policy.renewalDueDate
      = { day := regDate.day, month := regDate.month,
          year := regDate.year + 1 }) ∧
    ((performRenewal daysBetween currentYear v currentDate methodChoice
        promo confirmAndPay).outcome = RenewalOutcome.committed →
      (performRenewal daysBetween currentYear v currentDate methodChoice
        promo confirmAndPay).vehicle.policy.renewalDueDate
        = { day := v.policy.renewalDueDate.day,
            month := v.policy.renewalDueDate.month,
            year := v.policy.renewalDueDate.year + 1 }) := by
  constructor
  · rfl
  · intro h
    rw [performRenewal_eq] at h ⊢
    split_ifs at h ⊢
    simp_all [setPolicyStatus, setRenewalDueDate, calculateRenewalDate]

/-- Witness for C7: a committed concrete renewal run advances the due
date of the example vehicle by exactly one year. -/
theorem renewal_due_date_invariant_witness :
    (performRenewal (fun _ _ => -31) 2024 egVehicle egDate 2 ""
        (fun _ _ => true)).outcome = RenewalOutcome.committed ∧
    (performRenewal (fun _ _ => -31) 2024 egVehicle egDate 2 ""
        (fun _ _ => true)).vehicle.policy.renewalDueDate
      = { day := egVehicle.policy.renewalDueDate.day,
          month := egVehicle.policy.renewalDueDate.month,
          year := egVehicle.policy.renewalDueDate.year + 1 } :=
  ⟨by decide,
   (renewal_due_date_invariant "Maruti" "Alto" 2020 300000 "Petrol" egDate
      (fun _ _ => -31) 2024 egVehicle egDate 2 "" (fun _ _ => true)).2
      (by decide)⟩

/-- C1 (counterexample): performRenewal on the freshly constructed
example vehicle (status "New"), with an expired policy and an invalid
payment-method selection (choice 0), ends without completing the renewal
and yet leaves a modified Policy: the status field was overwritten with
the evaluated status before the payment step. -/
theorem performRenewal_failure_modifies_policy :
    (performRenewal (fun _ _ => -31) 2024 egVehicle egDate 0 ""
        (fun _ _ => false)).outcome = RenewalOutcome.invalidSelection ∧
    (performRenewal (fun _ _ => -31) 2024 egVehicle egDate 0 ""
        (fun _ _ => false)).vehicle.policy ≠ egVehicle.policy := by
  constructor
  · decide
  · decide

/-- C1 (amended): a performRenewal run that fails on an invalid method
selection or on a declined payment leaves the registration date and the
renewal due date unmodified, but sets the Policy status to the evaluated
"OVERDUE / EXPIRED" label (written before the payment step); the Policy
is entirely unmodified exactly when its status already carried that
label. -/
theorem performRenewal_failure_frame
    (daysBetween : PolicyDate → PolicyDate → Int) (currentYear : Int)
    (v : Vehicle) (currentDate : PolicyDate) (methodChoice : Int)
    (promo : String) (confirmAndPay : BillBreakdown → Int → Bool)
    (h : (performRenewal daysBetween currentYear v currentDate methodChoice
            promo confirmAndPay).outcome = RenewalOutcome.invalidSelection ∨
         (performRenewal daysBetween currentYear v currentDate methodChoice
            promo confirmAndPay).outcome = RenewalOutcome.paymentDeclined) :
    (performRenewal daysBetween currentYear v currentDate methodChoice
        promo confirmAndPay).vehicle.policy.registrationDate
      = v.policy.registrationDate ∧
    (performRenewal daysBetween currentYear v currentDate methodChoice
        promo confirmAndPay).vehicle.policy.renewalDueDate
      = v.policy.renewalDueDate ∧
    (performRenewal daysBetween currentYear v currentDate methodChoice
        promo confirmAndPay).vehicle.policy.status = "OVERDUE / EXPIRED" ∧
    (v.policy.status = "OVERDUE / EXPIRED" →
      (performRenewal daysBetween currentYear v currentDate methodChoice
        promo confirmAndPay).vehicle.policy = v.policy) := by
  have hexp : (evaluateStatus (daysBetween v.policy.renewalDueDate
      currentDate)).expired = true := by
    rw [performRenewal_eq] at h
    by_cases hx : (evaluateStatus (daysBetween v.policy.renewalDueDate
        currentDate)).expired = false
    · rw [if_pos hx] at h
      simp at h
    · cases hy : (evaluateStatus (daysBetween v.policy.renewalDueDate
          currentDate)).expired
      · exact absurd hy hx
      · rfl
  have hst := evaluateStatus_expired_status
    (daysBetween v.policy.renewalDueDate currentDate) hexp
  rw [performRenewal_eq] at h ⊢
  rw [if_neg (by simp [hexp])] at h ⊢
  by_cases hv : (quoteAndChoosePayment methodChoice promo
      (calculatePremium currentYear v)
      (evaluateStatus (daysBetween v.policy.renewalDueDate
        currentDate)).fine).valid = false
  · rw [if_pos hv]
    refine ⟨by simp [setPolicyStatus], by simp [setPolicyStatus],
      by simp [setPolicyStatus, hst], fun hpre => ?_⟩
    simp only [setPolicyStatus, hst]
    rw [← hpre]
  · rw [if_neg hv] at h ⊢
    by_cases hc : confirmAndPay (quoteAndChoosePayment methodChoice promo
        (calculatePremium currentYear v)
        (evaluateStatus (daysBetween v.policy.renewalDueDate
          currentDate)).fine).bill
        (quoteAndChoosePayment methodChoice promo
        (calculatePremium currentYear v)
        (evaluateStatus (daysBetween v.policy.renewalDueDate
          currentDate)).fine).method = false
    · rw [if_pos hc]
      refine ⟨by simp [setPolicyStatus], by simp [setPolicyStatus],
        by simp [setPolicyStatus, hst], fun hpre => ?_⟩
      simp only [setPolicyStatus, hst]
      rw [← hpre]
    · rw [if_neg hc] at h
      simp at h

/-- Witness for C1 (amended) at a concrete invalid-selection run. -/
theorem performRenewal_failure_frame_witness :
    (performRenewal (fun _ _ => -31) 2024 egVehicle egDate 0 ""
        (fun _ _ => false)).vehicle.policy.renewalDueDate
      = egVehicle.policy.renewalDueDate ∧
    (performRenewal (fun _ _ => -31) 2024 egVehicle egDate 0 ""
        (fun _ _ => false)).vehicle.policy.status = "OVERDUE / EXPIRED" :=
  ⟨(performRenewal_failure_frame (fun _ _ => -31) 2024 egVehicle egDate 0 ""
      (fun _ _ => false) (Or.inl (by decide))).2.1,
   (performRenewal_failure_frame (fun _ _ => -31) 2024 egVehicle egDate 0 ""
      (fun _ _ => false) (Or.inl (by decide))).2.2.1⟩

/-- C10: in every outcome, performRenewal leaves the vehicle's make,
model, manufacture year, original value, fuel type and the Policy's
registration date unmodified; only the renewal due date and status
fields can change. -/
theorem performRenewal_vehicle_frame
    (daysBetween : PolicyDate → PolicyDate → Int) (currentYear : Int)
    (v : Vehicle) (currentDate : PolicyDate) (methodChoice : Int)
    (promo : String) (confirmAndPay : BillBreakdown → Int → Bool) :
    (performRenewal daysBetween currentYear v currentDate methodChoice
        promo confirmAndPay).vehicle.make = v.make ∧
    (performRenewal daysBetween currentYear v currentDate methodChoice
        promo confirmAndPay).vehicle.model = v.model ∧
    (performRenewal daysBetween currentYear v currentDate methodChoice
        promo confirmAndPay).vehicle.year = v.year ∧
    (performRenewal daysBetween currentYear v currentDate methodChoice
        promo confirmAndPay).vehicle.originalValue = v.originalValue ∧
    (performRenewal daysBetween currentYear v currentDate methodChoice
        promo confirmAndPay).vehicle.fuelType = v.fuelType ∧
    (performRenewal daysBetween currentYear v currentDate methodChoice
        promo confirmAndPay).vehicle.policy.registrationDate
      = v.policy.registrationDate := by
  rw [performRenewal_eq]
  split_ifs <;> simp [setPolicyStatus, setRenewalDueDate]
